import Mathlib

/-
Verification of the Forminator insert generator.

The Python module is embedded shallowly: Python strings become Lean
String values, Python ints become Int, lists become List, and the two
fallible conversions (datetime.strptime and float) become Option/Except
returning functions.  Python floats that originate from decimal literals
are modelled exactly as scaled decimals (PyDecimal); IEEE-754 rounding is
not modelled because every float in this program is parsed from a short
decimal string, for which the shortest round-trip repr is the canonical
decimal rendering.
-/

set_option maxRecDepth 40000

/-! ## Calendar and timestamp model (datetime library fragment) -/

/-- A parsed timestamp, as produced by datetime.strptime with the fixed
format Y-m-d H:M:S used by the generator. -/
structure DateTime where
  year : Nat
  month : Nat
  day : Nat
  hour : Nat
  minute : Nat
  second : Nat
deriving DecidableEq, Repr

/-- Zero padding to two digits, as strftime does for m, d, H, M, S. -/
def pad2 (n : Nat) : String :=
  if n < 10 then "0" ++ Nat.repr n else Nat.repr n

/-- Models strftime with format Y-m-d H:M:S. -/
def strftime_YmdHMS (d : DateTime) : String :=
  Nat.repr d.year ++ "-" ++ pad2 d.month ++ "-" ++ pad2 d.day ++ " " ++
    pad2 d.hour ++ ":" ++ pad2 d.minute ++ ":" ++ pad2 d.second

/-- Models strftime with format d/m/Y, used for the hidden-2 value. -/
def strftime_dmY (d : DateTime) : String :=
  pad2 d.day ++ "/" ++ pad2 d.month ++ "/" ++ Nat.repr d.year

/-- Numeric value of a digit character. -/
def digitVal (c : Char) : Nat := c.toNat - 48

/-- Read one or two digits greedily, as the strptime patterns for
m, d, H, M, S do. -/
def read2 : List Char → Option (Nat × List Char)
  | c1 :: c2 :: r =>
    if c1.isDigit then
      (if c2.isDigit then some (digitVal c1 * 10 + digitVal c2, r)
       else some (digitVal c1, c2 :: r))
    else none
  | [c1] => if c1.isDigit then some (digitVal c1, []) else none
  | [] => none

/-- Read exactly four digits, as the strptime pattern for Y does. -/
def read4 : List Char → Option (Nat × List Char)
  | c1 :: c2 :: c3 :: c4 :: r =>
    if c1.isDigit && c2.isDigit && c3.isDigit && c4.isDigit then
      some (((digitVal c1 * 10 + digitVal c2) * 10 + digitVal c3) * 10 + digitVal c4, r)
    else none
  | _ => none

/-- ASCII whitespace recognised by the strptime whitespace pattern. -/
def isPySpace (c : Char) : Bool :=
  c == ' ' || c == '\t' || c == '\n' || c == '\r' || c == '\x0b' || c == '\x0c'

/-- Consume at least one whitespace character, then any further ones. -/
def skipSpaces1 : List Char → Option (List Char)
  | c :: r => if isPySpace c then some (r.dropWhile isPySpace) else none
  | [] => none

/-- Consume one expected literal character. -/
def expectChar (ch : Char) : List Char → Option (List Char)
  | c :: r => if c == ch then some r else none
  | [] => none

/-- Gregorian leap-year rule. -/
def isLeapYear (y : Nat) : Bool :=
  (y % 4 == 0) && (y % 100 != 0 || y % 400 == 0)

/-- Number of days of a month, as validated by the datetime constructor. -/
def daysInMonth (y m : Nat) : Nat :=
  if m = 2 then (if isLeapYear y then 29 else 28)
  else if m = 4 ∨ m = 6 ∨ m = 9 ∨ m = 11 then 30
  else 31

/-- Models datetime.strptime with format Y-m-d H:M:S: the whole input
must be consumed and the fields must form a valid timestamp, otherwise
the call raises (here: returns none). -/
def strptime_YmdHMS (s : String) : Option DateTime := do
  let cs := s.data
  let (y, cs) ← read4 cs
  let cs ← expectChar ('-') cs
  let (mo, cs) ← read2 cs
  let cs ← expectChar ('-') cs
  let (d, cs) ← read2 cs
  let cs ← skipSpaces1 cs
  let (h, cs) ← read2 cs
  let cs ← expectChar (':') cs
  let (mi, cs) ← read2 cs
  let cs ← expectChar (':') cs
  let (se, cs) ← read2 cs
  if cs = [] ∧ 1 ≤ y ∧ 1 ≤ mo ∧ mo ≤ 12 ∧ 1 ≤ d ∧ d ≤ daysInMonth y mo ∧
      h ≤ 23 ∧ mi ≤ 59 ∧ se ≤ 59 then
    some ⟨y, mo, d, h, mi, se⟩
  else none

/-! ## Python numbers (int and decimal-valued float) -/

/-- A Python float that came from a plain decimal literal: the exact
value is sign times mantissa divided by ten to the scale. -/
structure PyDecimal where
  neg : Bool
  mantissa : Nat
  scale : Nat
deriving DecidableEq, Repr

/-- Drop trailing zero characters. -/
def stripTrailingZeros (s : String) : String :=
  ⟨(s.data.reverse.dropWhile (fun c => c == '0')).reverse⟩

/-- Left-pad a digit string with zeros up to the given width. -/
def padZerosTo (w : Nat) (s : String) : String :=
  ⟨List.replicate (w - s.length) '0'⟩ ++ s

/-- Python str of such a float: canonical decimal with at least one
fractional digit, for example 20.0 prints as the five characters 20.0. -/
def PyDecimal.str (f : PyDecimal) : String :=
  let p := 10 ^ f.scale
  let fracDigits := stripTrailingZeros (padZerosTo f.scale (Nat.repr (f.mantissa % p)))
  let frac := if fracDigits = "" then "0" else fracDigits
  (if f.neg then "-" else "") ++ Nat.repr (f.mantissa / p) ++ "." ++ frac

/-- Python int() of such a float: truncation toward zero. -/
def PyDecimal.toIntTrunc (f : PyDecimal) : Int :=
  let q : Nat := f.mantissa / 10 ^ f.scale
  if f.neg then -(q : Int) else (q : Int)

/-- Value of a list of digit characters. -/
def digitsToNat (ds : List Char) : Nat :=
  ds.foldl (fun n c => n * 10 + (c.toNat - 48)) 0

/-- Models Python float() on a plain decimal string: optional sign,
digits with at most one point, at least one digit overall.  Exponent,
infinity, nan, underscore and surrounding-whitespace forms are outside
the modelled fragment; on anything else the call raises (none). -/
def pyParseFloat (s : String) : Option PyDecimal :=
  let step1 : Bool × List Char :=
    match s.data with
    | '+' :: r => (false, r)
    | '-' :: r => (true, r)
    | r => (false, r)
  let neg := step1.1
  let afterSign := step1.2
  let intPart := afterSign.span (fun c => c.isDigit)
  let ids := intPart.1
  match intPart.2 with
  | '.' :: r =>
    let fracPart := r.span (fun c => c.isDigit)
    let fds := fracPart.1
    if fracPart.2 = [] ∧ (ids ≠ [] ∨ fds ≠ []) then
      some ⟨neg, digitsToNat (ids ++ fds), fds.length⟩
    else none
  | [] => if ids ≠ [] then some ⟨neg, digitsToNat ids, 0⟩ else none
  | _ => none

/-- A Python number as it reaches php_serialize_calculation: either an
int (the hard-coded 20 or 0) or a float (parsed from the amount). -/
inductive PyNum where
  | int (n : Int)
  | float (f : PyDecimal)
deriving DecidableEq, Repr

/-- Python str of the number, as an f-string renders it. -/
def PyNum.str : PyNum → String
  | .int n => toString n
  | .float f => f.str

/-- Python int() of the number (truncation toward zero on floats). -/
def PyNum.toIntPy : PyNum → Int
  | .int n => n
  | .float f => f.toIntTrunc

/-! ## String helpers used by the generator -/

/-- Python sep.join of a list of strings. -/
def pyJoin (sep : String) : List String → String
  | [] => ""
  | [x] => x
  | x :: xs => x ++ sep ++ pyJoin sep xs

/-- Python str.replace with a single-character needle: every occurrence
of the character is replaced by the replacement characters. -/
def pyReplaceChar (c : Char) (r : List Char) : List Char → List Char
  | [] => []
  | x :: xs => (if x = c then r else [x]) ++ pyReplaceChar c r xs

/-! ## The generator itself (forminator_insert_generator.py) -/

/-- The fixed target table name. -/
def TABLE_NAME : String := "wp_frmt_form_entry_meta"

/-- php_serialize_string: emit s:{byte_length}:"{value}" where the
length is the UTF-8 byte count of the value. -/
def php_serialize_string (value : String) : String :=
  let byte_length := value.utf8ByteSize
  "s:" ++ toString byte_length ++ ":\"" ++ value ++ "\""

/-- php_serialize_name: the fixed two-key array of first and last name. -/
def php_serialize_name (first_name last_name : String) : String :=
  let first_serialized := php_serialize_string first_name
  let last_serialized := php_serialize_string last_name
  "a:2:\x7bs:10:\"first-name\";" ++ first_serialized ++ ";s:9:\"last-name\";" ++
    last_serialized ++ ";\x7d"

/-- php_serialize_calculation: result plus formatted currency text. -/
def php_serialize_calculation (amount : PyNum) (currency_symbol : String := "€") : String :=
  let formatted_amount := currency_symbol ++ " " ++ toString amount.toIntPy
  let formatted_serialized := php_serialize_string formatted_amount
  "a:2:\x7bs:6:\"result\";d:" ++ amount.str ++ ";s:17:\"formatting_result\";" ++
    formatted_serialized ++ ";\x7d"

/-- php_serialize_stripe: the fixed nine-key Stripe payment array. -/
def php_serialize_stripe (transaction_id amount : String)
    (currency : String := "EUR") (mode : String := "live")
    (product_name : String := "Plan 1") (payment_type : String := "One Time")
    (status : String := "COMPLETED") : String :=
  let transaction_link := "https://dashboard.stripe.com/payments/" ++ transaction_id
  let parts : List String := [
    "s:4:\"mode\";" ++ php_serialize_string mode,
    "s:12:\"product_name\";" ++ php_serialize_string product_name,
    "s:12:\"payment_type\";" ++ php_serialize_string payment_type,
    "s:6:\"amount\";" ++ php_serialize_string amount,
    "s:8:\"quantity\";" ++ php_serialize_string ("1"),
    "s:8:\"currency\";" ++ php_serialize_string currency,
    "s:14:\"transaction_id\";" ++ php_serialize_string transaction_id,
    "s:16:\"transaction_link\";" ++ php_serialize_string transaction_link,
    "s:6:\"status\";" ++ php_serialize_string status]
  "a:9:\x7b" ++ pyJoin (";") parts ++ ";\x7d"

/-- escape_sql_string: replace backslash by double backslash, then
single quote by backslash quote, in that order. -/
def escape_sql_string (value : String) : String :=
  ⟨pyReplaceChar ('\x27') ['\\', '\x27'] (pyReplaceChar ('\\') ['\\', '\\'] value.data)⟩

/-- generate_insert_query: render one insertion statement.  A missing
creation timestamp defaults to the current time, passed here explicitly
as the now argument. -/
def generate_insert_query (meta_id entry_id : Int) (meta_key meta_value : String)
    (date_created : Option String) (now : DateTime) : String :=
  let date_created :=
    match date_created with
    | none => strftime_YmdHMS now
    | some s => s
  let escaped_value := escape_sql_string meta_value
  "INSERT INTO `" ++ TABLE_NAME ++ "` " ++
    "(`meta_id`, `entry_id`, `meta_key`, `meta_value`, `date_created`, `date_updated`) " ++
    "VALUES " ++
    "(" ++ toString meta_id ++ ", " ++ toString entry_id ++ ", \x27" ++ meta_key ++
    "\x27, \x27" ++ escaped_value ++ "\x27, \x27" ++ date_created ++
    "\x27, \x270000-00-00 00:00:00\x27);"

/-- One form entry: the parameters of generate_entry_inserts bundled. -/
structure Entry where
  entry_id : Int
  meta_id_start : Int
  first_name : String
  last_name : String
  email : String
  phone : String
  grade : String
  dojo_name : String
  birth_date : String
  gender : String
  stripe_transaction_id : String
  stripe_amount : String
  party : Bool := false
  t_shirt : Bool := false
  t_shirt_size : Option String := none
  date_created : Option String := none
  currency : String := "EUR"
deriving DecidableEq, Repr

/-- The gender_map lookup with fallback to the raw code. -/
def gender_full (g : String) : String :=
  if g = "M" then "Masculin / Male"
  else if g = "F" then "Féminin / Female"
  else g

/-- Python truthiness of an optional string: present and non-empty. -/
def optStrTruthy : Option String → Bool
  | none => false
  | some s => s != ""

/-- The checkbox-2 value: comma-space join of the selected options. -/
def checkbox_value (party t_shirt : Bool) : String :=
  let vals := (if party then [("Fête Finale / Final Party")] else []) ++
    (if t_shirt then [("T-Shirt")] else [])
  pyJoin (", ") vals

/-- The date_created local variable after defaulting to the clock. -/
def resolved_date_created (e : Entry) (now : DateTime) : String :=
  match e.date_created with
  | none => strftime_YmdHMS now
  | some s => s

/-- The submission_date computation: an empty date_created falls back to
the clock, a non-empty one is re-parsed with strptime and re-rendered as
d/m/Y; a parse failure raises. -/
def submissionDate (date_created : String) (now : DateTime) : Except String String :=
  if date_created = "" then Except.ok (strftime_dmY now)
  else
    match strptime_YmdHMS date_created with
    | some d => Except.ok (strftime_dmY d)
    | none => Except.error ("time data does not match format Y-m-d H:M:S")

/-- The straight-line body of generate_entry_inserts after the two
fallible conversions succeeded: the sixteen append blocks, each included
block consuming one meta id by post-increment. -/
def entryQueriesCore (e : Entry) (now : DateTime)
    (date_created submission_date : String) (am : PyDecimal) : List String :=
  let gender_value := gender_full e.gender
  let queries : List String := []
  let cur : Int := e.meta_id_start
  let queries := queries ++ [generate_insert_query cur e.entry_id ("hidden-1")
    (toString e.entry_id) (some date_created) now]
  let cur := cur + 1
  let queries := queries ++ [generate_insert_query cur e.entry_id ("hidden-2")
    submission_date (some date_created) now]
  let cur := cur + 1
  let queries := queries ++ [generate_insert_query cur e.entry_id ("calculation-1")
    (php_serialize_calculation (PyNum.int (if e.t_shirt then 20 else 0)))
    (some date_created) now]
  let cur := cur + 1
  let queries := queries ++ [generate_insert_query cur e.entry_id ("calculation-2")
    (php_serialize_calculation (PyNum.float am)) (some date_created) now]
  let cur := cur + 1
  let queries := queries ++ [generate_insert_query cur e.entry_id ("name-1")
    (php_serialize_name e.first_name e.last_name) (some date_created) now]
  let cur := cur + 1
  let queries := queries ++ [generate_insert_query cur e.entry_id ("email-1")
    e.email (some date_created) now]
  let cur := cur + 1
  let queries := queries ++ [generate_insert_query cur e.entry_id ("phone-1")
    e.phone (some date_created) now]
  let cur := cur + 1
  let queries := queries ++ [generate_insert_query cur e.entry_id ("select-1")
    e.grade (some date_created) now]
  let cur := cur + 1
  let queries := queries ++ [generate_insert_query cur e.entry_id ("text-3")
    e.dojo_name (some date_created) now]
  let cur := cur + 1
  let queries := queries ++ [generate_insert_query cur e.entry_id ("date-1")
    e.birth_date (some date_created) now]
  let cur := cur + 1
  let step :=
    if e.t_shirt then
      (queries ++ [generate_insert_query cur e.entry_id ("select-2")
        gender_value (some date_created) now], cur + 1)
    else (queries, cur)
  let queries := step.1
  let cur := step.2
  let step :=
    if e.t_shirt && optStrTruthy e.t_shirt_size then
      (queries ++ [generate_insert_query cur e.entry_id ("select-3")
        (e.t_shirt_size.getD ("")) (some date_created) now], cur + 1)
    else (queries, cur)
  let queries := step.1
  let cur := step.2
  let step :=
    if e.t_shirt then
      (queries ++ [generate_insert_query cur e.entry_id ("select-4")
        ("1") (some date_created) now], cur + 1)
    else (queries, cur)
  let queries := step.1
  let cur := step.2
  let queries := queries ++ [generate_insert_query cur e.entry_id ("select-5")
    ("1") (some date_created) now]
  let cur := cur + 1
  let step :=
    if e.party || e.t_shirt then
      (queries ++ [generate_insert_query cur e.entry_id ("checkbox-2")
        (checkbox_value e.party e.t_shirt) (some date_created) now], cur + 1)
    else (queries, cur)
  let queries := step.1
  let cur := step.2
  queries ++ [generate_insert_query cur e.entry_id ("stripe-ocs-1")
    (php_serialize_stripe e.stripe_transaction_id e.stripe_amount e.currency)
    (some date_created) now]

/-- generate_entry_inserts: resolve the creation timestamp, derive the
submission date (fallible), convert the amount (fallible), then emit the
query list. -/
def generate_entry_inserts (e : Entry) (now : DateTime) : Except String (List String) :=
  let date_created := resolved_date_created e now
  match submissionDate date_created now with
  | Except.error m => Except.error m
  | Except.ok submission_date =>
    match pyParseFloat e.stripe_amount with
    | none => Except.error ("could not convert string to float: " ++ e.stripe_amount)
    | some am => Except.ok (entryQueriesCore e now date_created submission_date am)

/-- The keyword arguments generate_multiple_entries forwards for one
batch record: everything except party, t_shirt and t_shirt_size, which
are not passed and therefore keep their defaults. -/
def batchEntry (e : Entry) : Entry :=
  { entry_id := e.entry_id
    meta_id_start := e.meta_id_start
    first_name := e.first_name
    last_name := e.last_name
    email := e.email
    phone := e.phone
    grade := e.grade
    dojo_name := e.dojo_name
    birth_date := e.birth_date
    gender := e.gender
    stripe_transaction_id := e.stripe_transaction_id
    stripe_amount := e.stripe_amount
    party := false
    t_shirt := false
    t_shirt_size := none
    date_created := e.date_created
    currency := e.currency }

/-- generate_multiple_entries: generate each record in order, append an
empty line after each, and abort the whole batch on the first raise. -/
def generate_multiple_entries : List Entry → DateTime → Except String (List String)
  | [], _ => Except.ok []
  | e :: rest, now =>
    match generate_entry_inserts (batchEntry e) now with
    | Except.error m => Except.error m
    | Except.ok qs =>
      match generate_multiple_entries rest now with
      | Except.error m => Except.error m
      | Except.ok qss => Except.ok (qs ++ [""] ++ qss)

/-! ## Derived views used by the theorems -/

/-- The ordered (key, value) table of the rows one entry emits, with the
conditional-inclusion rules of the source. -/
def entryFields (e : Entry) (submission_date : String) (am : PyDecimal) :
    List (String × String) :=
  [(("hidden-1"), toString e.entry_id),
   (("hidden-2"), submission_date),
   (("calculation-1"), php_serialize_calculation (PyNum.int (if e.t_shirt then 20 else 0))),
   (("calculation-2"), php_serialize_calculation (PyNum.float am)),
   (("name-1"), php_serialize_name e.first_name e.last_name),
   (("email-1"), e.email),
   (("phone-1"), e.phone),
   (("select-1"), e.grade),
   (("text-3"), e.dojo_name),
   (("date-1"), e.birth_date)] ++
  (if e.t_shirt then [(("select-2"), gender_full e.gender)] else []) ++
  (if e.t_shirt && optStrTruthy e.t_shirt_size then
    [(("select-3"), e.t_shirt_size.getD (""))] else []) ++
  (if e.t_shirt then [(("select-4"), ("1"))] else []) ++
  [(("select-5"), ("1"))] ++
  (if e.party || e.t_shirt then
    [(("checkbox-2"), checkbox_value e.party e.t_shirt)] else []) ++
  [(("stripe-ocs-1"), php_serialize_stripe e.stripe_transaction_id e.stripe_amount e.currency)]

/-- Render a row table to statements, giving the first row the start
identifier and each following row the next identifier. -/
def renderRows (start : Int) (eid : Int) (dc : String) (now : DateTime) :
    List (String × String) → List String
  | [] => []
  | kv :: rest =>
    generate_insert_query start eid kv.1 kv.2 (some dc) now ::
      renderRows (start + 1) eid dc now rest

/-- The ok payload of a batch result, or the empty list on error. -/
def okD (x : Except String (List String)) : List String :=
  match x with
  | Except.ok l => l
  | Except.error _ => []

/-- Statement rendering as the spec describes it, for comparison with
the source: the spec additionally escapes the field key. -/
def generate_insert_query_per_spec (meta_id entry_id : Int) (meta_key meta_value : String)
    (date_created : Option String) (now : DateTime) : String :=
  let date_created :=
    match date_created with
    | none => strftime_YmdHMS now
    | some s => s
  let escaped_value := escape_sql_string meta_value
  let escaped_key := escape_sql_string meta_key
  "INSERT INTO `" ++ TABLE_NAME ++ "` " ++
    "(`meta_id`, `entry_id`, `meta_key`, `meta_value`, `date_created`, `date_updated`) " ++
    "VALUES " ++
    "(" ++ toString meta_id ++ ", " ++ toString entry_id ++ ", \x27" ++ escaped_key ++
    "\x27, \x27" ++ escaped_value ++ "\x27, \x27" ++ date_created ++
    "\x27, \x270000-00-00 00:00:00\x27);"

/-- The key/value table behind the Stripe aggregate, in emission order,
used to compare the emitted header count against the pair count. -/
def stripePairs (transaction_id amount currency mode product_name payment_type status : String) :
    List (String × String) :=
  [(("mode"), mode),
   (("product_name"), product_name),
   (("payment_type"), payment_type),
   (("amount"), amount),
   (("quantity"), ("1")),
   (("currency"), currency),
   (("transaction_id"), transaction_id),
   (("transaction_link"), "https://dashboard.stripe.com/payments/" ++ transaction_id),
   (("status"), status)]

/-- Single-pass description of the SQL escaping: a backslash becomes two
backslashes, a single quote becomes backslash quote, anything else is
kept. -/
def escChar (c : Char) : List Char :=
  if c = '\\' then ['\\', '\\']
  else if c = '\x27' then ['\\', '\x27']
  else [c]

theorem pyReplaceChar_append (c : Char) (r a b : List Char) :
    pyReplaceChar c r (a ++ b) = pyReplaceChar c r a ++ pyReplaceChar c r b := by
  induction a with
  | nil => rfl
  | cons x xs ih => simp [pyReplaceChar, ih]

theorem escChar_head (y : Char) :
    pyReplaceChar ('\x27') ['\\', '\x27'] (if y = '\\' then ['\\', '\\'] else [y]) =
      escChar y := by
  rcases eq_or_ne y '\\' with h | h
  · subst h; decide
  · rcases eq_or_ne y '\x27' with h2 | h2
    · subst h2; decide
    · simp [pyReplaceChar, escChar, h, h2]

theorem escape_twopass (l : List Char) :
    pyReplaceChar ('\x27') ['\\', '\x27'] (pyReplaceChar ('\\') ['\\', '\\'] l) =
      l.flatMap escChar := by
  induction l with
  | nil => rfl
  | cons x xs ih =>
    rw [show pyReplaceChar ('\\') ['\\', '\\'] (x :: xs) =
          (if x = '\\' then ['\\', '\\'] else [x]) ++ pyReplaceChar ('\\') ['\\', '\\'] xs
        from rfl,
      pyReplaceChar_append, ih, List.flatMap_cons, escChar_head x]

/-- Claim C1: for every input string, php_serialize_string returns
exactly s:{n}:"{s}" with n the UTF-8 byte length of s, quotes as literal
delimiters and the content unescaped; the accented test string shows the
prefix counts bytes, not characters. -/
theorem C1_serialize_string_format :
    (∀ s : String,
      php_serialize_string s = "s:" ++ toString s.utf8ByteSize ++ ":\"" ++ s ++ "\"")
    ∧ php_serialize_string ("é") = "s:2:\"é\""
    ∧ ("é").utf8ByteSize = 2 ∧ ("é").length = 1 :=
  ⟨fun _ => rfl, by decide, by decide, by decide⟩

/-- Claim C6: the escape runs the backslash pass first and the quote
pass second, which amounts to the simultaneous per-character map
escChar; the literal input containing both characters escapes as the
spec predicts. -/
theorem C6_escape_order :
    (∀ s : String, escape_sql_string s = ⟨s.data.flatMap escChar⟩)
    ∧ escape_sql_string ("O\x27Brien\\") = "O\\\x27Brien\\\\" :=
  ⟨fun s => congrArg String.mk (escape_twopass s.data), by decide⟩

/-- Claim C7: php_serialize_calculation formats the currency symbol, a
space and the truncated amount, wraps that with php_serialize_string,
and emits the two-key aggregate; at amount 20.0 with the default symbol
the formatted text has byte length 6 (4 characters), and truncation is
toward zero, never rounding. -/
theorem C7_calculation_format :
    (∀ (amount : PyNum) (currency_symbol : String),
      php_serialize_calculation amount currency_symbol =
        "a:2:\x7bs:6:\"result\";d:" ++ amount.str ++ ";s:17:\"formatting_result\";" ++
          php_serialize_string (currency_symbol ++ " " ++ toString amount.toIntPy) ++ ";\x7d")
    ∧ php_serialize_calculation (PyNum.float ⟨false, 200, 1⟩) =
        "a:2:\x7bs:6:\"result\";d:20.0;s:17:\"formatting_result\";s:6:\"€ 20\";\x7d"
    ∧ ("€ 20").utf8ByteSize = 6 ∧ ("€ 20").length = 4
    ∧ PyNum.toIntPy (PyNum.float ⟨false, 209, 1⟩) = 20
    ∧ PyNum.toIntPy (PyNum.float ⟨true, 209, 1⟩) = -20 :=
  ⟨fun _ _ => rfl, by decide, by decide, by decide, by decide, by decide⟩

/-- Claim C8: php_serialize_stripe emits the aggregate whose header
count is the length of its pair table (9), whose keys appear in the
fixed order, whose transaction_link is the Stripe dashboard prefix plus
the transaction id, and whose every value is serialized with
php_serialize_string. -/
theorem C8_stripe_format :
    ∀ tid amt cur mode pn pt st : String,
      php_serialize_stripe tid amt cur mode pn pt st =
        "a:" ++ toString (stripePairs tid amt cur mode pn pt st).length ++ ":\x7b" ++
          pyJoin (";") ((stripePairs tid amt cur mode pn pt st).map
            (fun kv => php_serialize_string kv.1 ++ ";" ++ php_serialize_string kv.2)) ++
          ";\x7d"
      ∧ (stripePairs tid amt cur mode pn pt st).map Prod.fst =
          [("mode"), ("product_name"), ("payment_type"), ("amount"), ("quantity"),
           ("currency"), ("transaction_id"), ("transaction_link"), ("status")]
      ∧ (stripePairs tid amt cur mode pn pt st).length = 9 := by
  intro tid amt cur mode pn pt st
  refine ⟨?_, rfl, rfl⟩
  simp only [php_serialize_stripe, stripePairs, List.map, List.length]
  rw [show php_serialize_string ("mode") = "s:4:\"mode\"" from by decide,
    show php_serialize_string ("product_name") = "s:12:\"product_name\"" from by decide,
    show php_serialize_string ("payment_type") = "s:12:\"payment_type\"" from by decide,
    show php_serialize_string ("amount") = "s:6:\"amount\"" from by decide,
    show php_serialize_string ("quantity") = "s:8:\"quantity\"" from by decide,
    show php_serialize_string ("currency") = "s:8:\"currency\"" from by decide,
    show php_serialize_string ("transaction_id") = "s:14:\"transaction_id\"" from by decide,
    show php_serialize_string ("transaction_link") = "s:16:\"transaction_link\"" from by decide,
    show php_serialize_string ("status") = "s:6:\"status\"" from by decide,
    show ("s:4:\"mode\"" : String) ++ ";" = "s:4:\"mode\";" from by decide,
    show ("s:12:\"product_name\"" : String) ++ ";" = "s:12:\"product_name\";" from by decide,
    show ("s:12:\"payment_type\"" : String) ++ ";" = "s:12:\"payment_type\";" from by decide,
    show ("s:6:\"amount\"" : String) ++ ";" = "s:6:\"amount\";" from by decide,
    show ("s:8:\"quantity\"" : String) ++ ";" = "s:8:\"quantity\";" from by decide,
    show ("s:8:\"currency\"" : String) ++ ";" = "s:8:\"currency\";" from by decide,
    show ("s:14:\"transaction_id\"" : String) ++ ";" = "s:14:\"transaction_id\";" from by decide,
    show ("s:16:\"transaction_link\"" : String) ++ ";" = "s:16:\"transaction_link\";" from by decide,
    show ("s:6:\"status\"" : String) ++ ";" = "s:6:\"status\";" from by decide,
    show ("a:" : String) ++ toString (9 : Nat) ++ ":\x7b" = "a:9:\x7b" from by decide]

/-- Claim C5 amended: in every rendered statement the field value is
escaped (backslash pass then quote pass) before embedding, but the field
key is embedded verbatim, unescaped. -/
theorem C5_value_escaped_key_raw :
    ∀ (meta_id entry_id : Int) (meta_key meta_value dc : String) (now : DateTime),
      generate_insert_query meta_id entry_id meta_key meta_value (some dc) now =
        "INSERT INTO `" ++ TABLE_NAME ++ "` " ++
        "(`meta_id`, `entry_id`, `meta_key`, `meta_value`, `date_created`, `date_updated`) " ++
        "VALUES " ++
        "(" ++ toString meta_id ++ ", " ++ toString entry_id ++ ", \x27" ++ meta_key ++
        "\x27, \x27" ++ escape_sql_string meta_value ++ "\x27, \x27" ++ dc ++
        "\x27, \x270000-00-00 00:00:00\x27);" :=
  fun _ _ _ _ _ _ => rfl

/-- Claim C5 counterexample: with a key containing a quote the source
statement differs from the spec-described one that escapes the key too,
so the key is not escaped before embedding. -/
theorem C5_counterexample :
    generate_insert_query 1 2 ("a\x27b") ("v") (some ("2025-01-02 03:04:05"))
        ⟨2025, 7, 9, 12, 0, 0⟩ ≠
      generate_insert_query_per_spec 1 2 ("a\x27b") ("v") (some ("2025-01-02 03:04:05"))
        ⟨2025, 7, 9, 12, 0, 0⟩ := by decide

theorem entryQueriesCore_eq_renderRows (e : Entry) (now : DateTime)
    (dc sd : String) (am : PyDecimal) :
    entryQueriesCore e now dc sd am =
      renderRows e.meta_id_start e.entry_id dc now (entryFields e sd am) := by
  cases hts : e.t_shirt <;> cases hp : e.party <;>
    cases hsz : optStrTruthy e.t_shirt_size <;>
      simp [entryQueriesCore, entryFields, renderRows, hts, hp, hsz]

theorem gen_ok_renderRows (e : Entry) (now : DateTime) (sd : String) (am : PyDecimal)
    (h1 : submissionDate (resolved_date_created e now) now = Except.ok sd)
    (h2 : pyParseFloat e.stripe_amount = some am) :
    generate_entry_inserts e now =
      Except.ok (renderRows e.meta_id_start e.entry_id (resolved_date_created e now) now
        (entryFields e sd am)) := by
  simp only [generate_entry_inserts, h1, h2]
  rw [entryQueriesCore_eq_renderRows]

theorem renderRows_getD (eid : Int) (dc : String) (now : DateTime)
    (rows : List (String × String)) :
    ∀ (i : Nat) (start : Int), i < rows.length →
      (renderRows start eid dc now rows).getD i "" =
        generate_insert_query (start + (i : Int)) eid ((rows.getD i (("z"), ("z")))).1
          ((rows.getD i (("z"), ("z")))).2 (some dc) now := by
  induction rows with
  | nil => intro i start h; simp at h
  | cons kv rest ih =>
    intro i start h
    cases i with
    | zero => simp [renderRows, List.getD]
    | succ n =>
      have h2 : n < rest.length := by simpa using h
      have hrec := ih n (start + 1) h2
      have harith : start + 1 + (n : Int) = start + ((n + 1 : Nat) : Int) := by
        push_cast
        ring
      rw [harith] at hrec
      simpa [renderRows, List.getD] using hrec

/-- Claim C2: on every successful generation the emitted statements are
exactly the included row table rendered with consecutive identifiers:
renderRows gives the first row the caller-supplied start value and every
following row the previous identifier plus one, so each included row
consumes exactly one identifier, skipped rows consume none, and the row
at position i carries identifier start plus i (second conjunct). -/
theorem C2_row_identifiers_contiguous :
    (∀ (e : Entry) (now : DateTime) (sd : String) (am : PyDecimal),
      submissionDate (resolved_date_created e now) now = Except.ok sd →
      pyParseFloat e.stripe_amount = some am →
      generate_entry_inserts e now =
        Except.ok (renderRows e.meta_id_start e.entry_id (resolved_date_created e now) now
          (entryFields e sd am)))
    ∧ (∀ (start eid : Int) (dc : String) (now : DateTime)
        (rows : List (String × String)) (i : Nat), i < rows.length →
        (renderRows start eid dc now rows).getD i "" =
          generate_insert_query (start + (i : Int)) eid ((rows.getD i (("z"), ("z")))).1
            ((rows.getD i (("z"), ("z")))).2 (some dc) now) :=
  ⟨gen_ok_renderRows,
   fun start eid dc now rows i h => renderRows_getD eid dc now rows i start h⟩

/-- Fixed clock value used by the concrete instantiations. -/
def nwW : DateTime := ⟨2025, 7, 9, 12, 0, 0⟩

/-- A well-formed entry with both flags off. -/
def wEntry : Entry :=
  { entry_id := 3
    meta_id_start := 10
    first_name := "A"
    last_name := "B"
    email := "e"
    phone := "p"
    grade := "g"
    dojo_name := "d"
    birth_date := "b"
    gender := "M"
    stripe_transaction_id := "tx"
    stripe_amount := "350.00"
    date_created := some ("2025-01-02 03:04:05") }

/-- The same entry with party and t-shirt (with a size) switched on. -/
def cexEntry : Entry :=
  { wEntry with party := true, t_shirt := true, t_shirt_size := some ("L") }

theorem C2_witness :
    (submissionDate (resolved_date_created wEntry nwW) nwW = Except.ok ("02/01/2025")
      ∧ pyParseFloat wEntry.stripe_amount = some ⟨false, 35000, 2⟩
      ∧ generate_entry_inserts wEntry nwW =
          Except.ok (renderRows wEntry.meta_id_start wEntry.entry_id
            (resolved_date_created wEntry nwW) nwW
            (entryFields wEntry ("02/01/2025") ⟨false, 35000, 2⟩)))
    ∧ ((0 : Nat) < [((("k"), ("v")) : String × String)].length
      ∧ (renderRows 10 3 ("2025-01-02 03:04:05") nwW
            [((("k"), ("v")) : String × String)]).getD 0 "" =
          generate_insert_query (10 + ((0 : Nat) : Int)) 3
            (([((("k"), ("v")) : String × String)].getD 0 (("z"), ("z"))).1)
            (([((("k"), ("v")) : String × String)].getD 0 (("z"), ("z"))).2)
            (some ("2025-01-02 03:04:05")) nwW) :=
  have h1 : submissionDate (resolved_date_created wEntry nwW) nwW =
      Except.ok ("02/01/2025") := rfl
  have h2 : pyParseFloat wEntry.stripe_amount = some ⟨false, 35000, 2⟩ := rfl
  have h3 : (0 : Nat) < [((("k"), ("v")) : String × String)].length := by decide
  ⟨⟨h1, h2, C2_row_identifiers_contiguous.1 wEntry nwW _ _ h1 h2⟩,
   h3, C2_row_identifiers_contiguous.2 10 3 ("2025-01-02 03:04:05") nwW _ 0 h3⟩

/-- Claim C9: with the t-shirt flag off and party off exactly the twelve
unconditional rows are emitted, in order, with consecutive identifiers
from the start value (checkbox-2, select-2, select-3 and select-4 are
absent); with the t-shirt flag on and a size supplied all sixteen rows
are emitted in the fixed order with identifiers start through start
plus fifteen. -/
theorem C9_conditional_rows :
    (∀ (e : Entry) (now : DateTime) (sd : String) (am : PyDecimal),
      e.t_shirt = false → e.party = false →
      submissionDate (resolved_date_created e now) now = Except.ok sd →
      pyParseFloat e.stripe_amount = some am →
      generate_entry_inserts e now =
        Except.ok (renderRows e.meta_id_start e.entry_id (resolved_date_created e now) now
          [(("hidden-1"), toString e.entry_id),
           (("hidden-2"), sd),
           (("calculation-1"), php_serialize_calculation (PyNum.int 0)),
           (("calculation-2"), php_serialize_calculation (PyNum.float am)),
           (("name-1"), php_serialize_name e.first_name e.last_name),
           (("email-1"), e.email),
           (("phone-1"), e.phone),
           (("select-1"), e.grade),
           (("text-3"), e.dojo_name),
           (("date-1"), e.birth_date),
           (("select-5"), ("1")),
           (("stripe-ocs-1"),
             php_serialize_stripe e.stripe_transaction_id e.stripe_amount e.currency)]))
    ∧ (∀ (e : Entry) (now : DateTime) (sd : String) (am : PyDecimal),
      e.t_shirt = true → optStrTruthy e.t_shirt_size = true →
      submissionDate (resolved_date_created e now) now = Except.ok sd →
      pyParseFloat e.stripe_amount = some am →
      generate_entry_inserts e now =
        Except.ok (renderRows e.meta_id_start e.entry_id (resolved_date_created e now) now
          [(("hidden-1"), toString e.entry_id),
           (("hidden-2"), sd),
           (("calculation-1"), php_serialize_calculation (PyNum.int 20)),
           (("calculation-2"), php_serialize_calculation (PyNum.float am)),
           (("name-1"), php_serialize_name e.first_name e.last_name),
           (("email-1"), e.email),
           (("phone-1"), e.phone),
           (("select-1"), e.grade),
           (("text-3"), e.dojo_name),
           (("date-1"), e.birth_date),
           (("select-2"), gender_full e.gender),
           (("select-3"), e.t_shirt_size.getD ("")),
           (("select-4"), ("1")),
           (("select-5"), ("1")),
           (("checkbox-2"), checkbox_value e.party true),
           (("stripe-ocs-1"),
             php_serialize_stripe e.stripe_transaction_id e.stripe_amount e.currency)])) := by
  constructor
  · intro e now sd am hts hp h1 h2
    rw [gen_ok_renderRows e now sd am h1 h2]
    simp [entryFields, hts, hp]
  · intro e now sd am hts hsz h1 h2
    rw [gen_ok_renderRows e now sd am h1 h2]
    simp [entryFields, hts, hsz]

theorem C9_witness :
    (wEntry.t_shirt = false ∧ wEntry.party = false
      ∧ submissionDate (resolved_date_created wEntry nwW) nwW = Except.ok ("02/01/2025")
      ∧ pyParseFloat wEntry.stripe_amount = some ⟨false, 35000, 2⟩
      ∧ generate_entry_inserts wEntry nwW =
          Except.ok (renderRows wEntry.meta_id_start wEntry.entry_id
            (resolved_date_created wEntry nwW) nwW
            [(("hidden-1"), toString wEntry.entry_id),
             (("hidden-2"), ("02/01/2025")),
             (("calculation-1"), php_serialize_calculation (PyNum.int 0)),
             (("calculation-2"), php_serialize_calculation (PyNum.float ⟨false, 35000, 2⟩)),
             (("name-1"), php_serialize_name wEntry.first_name wEntry.last_name),
             (("email-1"), wEntry.email),
             (("phone-1"), wEntry.phone),
             (("select-1"), wEntry.grade),
             (("text-3"), wEntry.dojo_name),
             (("date-1"), wEntry.birth_date),
             (("select-5"), ("1")),
             (("stripe-ocs-1"), php_serialize_stripe wEntry.stripe_transaction_id
               wEntry.stripe_amount wEntry.currency)]))
    ∧ (cexEntry.t_shirt = true ∧ optStrTruthy cexEntry.t_shirt_size = true
      ∧ submissionDate (resolved_date_created cexEntry nwW) nwW = Except.ok ("02/01/2025")
      ∧ pyParseFloat cexEntry.stripe_amount = some ⟨false, 35000, 2⟩
      ∧ generate_entry_inserts cexEntry nwW =
          Except.ok (renderRows cexEntry.meta_id_start cexEntry.entry_id
            (resolved_date_created cexEntry nwW) nwW
            [(("hidden-1"), toString cexEntry.entry_id),
             (("hidden-2"), ("02/01/2025")),
             (("calculation-1"), php_serialize_calculation (PyNum.int 20)),
             (("calculation-2"), php_serialize_calculation (PyNum.float ⟨false, 35000, 2⟩)),
             (("name-1"), php_serialize_name cexEntry.first_name cexEntry.last_name),
             (("email-1"), cexEntry.email),
             (("phone-1"), cexEntry.phone),
             (("select-1"), cexEntry.grade),
             (("text-3"), cexEntry.dojo_name),
             (("date-1"), cexEntry.birth_date),
             (("select-2"), gender_full cexEntry.gender),
             (("select-3"), cexEntry.t_shirt_size.getD ("")),
             (("select-4"), ("1")),
             (("select-5"), ("1")),
             (("checkbox-2"), checkbox_value cexEntry.party true),
             (("stripe-ocs-1"), php_serialize_stripe cexEntry.stripe_transaction_id
               cexEntry.stripe_amount cexEntry.currency)])) :=
  have ha1 : wEntry.t_shirt = false := rfl
  have ha2 : wEntry.party = false := rfl
  have ha3 : submissionDate (resolved_date_created wEntry nwW) nwW =
      Except.ok ("02/01/2025") := rfl
  have ha4 : pyParseFloat wEntry.stripe_amount = some ⟨false, 35000, 2⟩ := rfl
  have hb1 : cexEntry.t_shirt = true := rfl
  have hb2 : optStrTruthy cexEntry.t_shirt_size = true := rfl
  have hb3 : submissionDate (resolved_date_created cexEntry nwW) nwW =
      Except.ok ("02/01/2025") := rfl
  have hb4 : pyParseFloat cexEntry.stripe_amount = some ⟨false, 35000, 2⟩ := rfl
  ⟨⟨ha1, ha2, ha3, ha4, C9_conditional_rows.1 wEntry nwW _ _ ha1 ha2 ha3 ha4⟩,
   ⟨hb1, hb2, hb3, hb4, C9_conditional_rows.2 cexEntry nwW _ _ hb1 hb2 hb3 hb4⟩⟩

/-- Claim C4 amended: generation succeeds exactly when the amount string
parses as a float and the resolved creation timestamp is either empty or
parses back with the fixed format; a non-empty malformed timestamp
override is a failure, contrary to the claim, while every other text
field is never validated. -/
theorem C4_failure_characterization :
    ∀ (e : Entry) (now : DateTime),
      (generate_entry_inserts e now).isOk = true ↔
        ((resolved_date_created e now = "" ∨
            (strptime_YmdHMS (resolved_date_created e now)).isSome = true) ∧
          (pyParseFloat e.stripe_amount).isSome = true) := by
  intro e now
  simp only [generate_entry_inserts, submissionDate]
  by_cases hd : resolved_date_created e now = ""
  · cases hf : pyParseFloat e.stripe_amount <;>
      simp [hd, hf, Except.isOk, Except.toBool]
  · cases hs : strptime_YmdHMS (resolved_date_created e now) <;>
      cases hf : pyParseFloat e.stripe_amount <;>
        simp [hd, hs, hf, Except.isOk, Except.toBool]

/-- The well-formed entry with a creation-timestamp override that is not
in Y-m-d H:M:S form. -/
def eC4 : Entry := { wEntry with date_created := some ("15/06/2025") }

/-- Claim C4 counterexample: the amount is well formed, every other
field is plain text, yet generation fails because the supplied creation
timestamp does not match the expected format. -/
theorem C4_counterexample :
    (generate_entry_inserts eC4 nwW).isOk = false ∧
      (pyParseFloat eC4.stripe_amount).isSome = true := by decide

/-- Claim C3 amended: for every list of batch records whose generations
all succeed, the batch output is the concatenation of the per-record
outputs in input order, with one empty separator line appended after
each record (including the last); each sub-generation uses the fields of
its own record except party, t-shirt and size, which
generate_multiple_entries does not forward, so they keep their defaults
(batchEntry), and each record keeps its own starting identifier. -/
theorem C3_batch_concatenation :
    ∀ (es : List Entry) (now : DateTime),
      (∀ e ∈ es, (generate_entry_inserts (batchEntry e) now).isOk = true) →
      generate_multiple_entries es now =
        Except.ok (es.flatMap
          (fun e => okD (generate_entry_inserts (batchEntry e) now) ++ [""])) := by
  intro es now
  induction es with
  | nil => intro _; rfl
  | cons e rest ih =>
    intro h
    have he := h e (by simp)
    rcases hg : generate_entry_inserts (batchEntry e) now with m | qs
    · rw [hg] at he
      simp [Except.isOk, Except.toBool] at he
    · have hrest := ih (fun x hx => h x (by simp [hx]))
      simp only [generate_multiple_entries, hg, hrest, List.flatMap_cons, okD,
        List.append_assoc]

/-- Claim C3 counterexample: for a record with the t-shirt and party
flags set, the batch output is not the concatenation of the per-record
outputs (those flags are dropped by the batch call, and a separator also
follows the final record). -/
theorem C3_counterexample :
    (generate_multiple_entries [cexEntry, wEntry] nwW).isOk = true ∧
      okD (generate_multiple_entries [cexEntry, wEntry] nwW) ≠
        okD (generate_entry_inserts cexEntry nwW) ++ [""] ++
          okD (generate_entry_inserts wEntry nwW) := by decide

theorem C3_witness :
    generate_multiple_entries [wEntry, wEntry] nwW =
      Except.ok ([wEntry, wEntry].flatMap
        (fun e => okD (generate_entry_inserts (batchEntry e) nwW) ++ [""])) :=
  C3_batch_concatenation [wEntry, wEntry] nwW (by
    intro e he
    simp only [List.mem_cons, List.not_mem_nil, or_false] at he
    rcases he with rfl | rfl <;> decide)

theorem batch_entry_length (e : Entry) (now : DateTime) (qs : List String)
    (h : generate_entry_inserts (batchEntry e) now = Except.ok qs) : qs.length = 12 := by
  simp only [generate_entry_inserts] at h
  rcases h1 : submissionDate (resolved_date_created (batchEntry e) now) now with m | sd <;>
    rw [h1] at h
  · simp at h
  · rcases h2 : pyParseFloat (batchEntry e).stripe_amount with _ | am <;> rw [h2] at h
    · simp at h
    · simp only [Except.ok.injEq] at h
      subst h
      simp [entryQueriesCore, batchEntry]

theorem batch_shape :
    ∀ (es : List Entry) (now : DateTime) (qs : List String),
      generate_multiple_entries es now = Except.ok qs →
      qs.length = 13 * es.length ∧ (es ≠ [] → qs.getLast? = some "") := by
  intro es
  induction es with
  | nil =>
    intro now qs h
    simp only [generate_multiple_entries, Except.ok.injEq] at h
    subst h
    simp
  | cons e rest ih =>
    intro now qs h
    simp only [generate_multiple_entries] at h
    rcases h1 : generate_entry_inserts (batchEntry e) now with m | qe <;> rw [h1] at h
    · simp at h
    · rcases h2 : generate_multiple_entries rest now with m | qrest <;> rw [h2] at h
      · simp at h
      · simp only [Except.ok.injEq] at h
        subst h
        have hlen := batch_entry_length e now qe h1
        have hrest := ih now qrest h2
        constructor
        · simp only [List.length_append, List.length_cons, List.length_nil, hlen, hrest.1]
          ring
        · intro _
          rcases Decidable.em (qrest = []) with hq | hq
          · subst hq
            rw [List.append_nil]
            rw [List.getLast?_append_of_ne_nil qe (by simp)]
            simp
          · rw [List.append_assoc]
            rw [List.getLast?_append_of_ne_nil qe (by simp [hq])]
            rw [List.getLast?_append_of_ne_nil [""] hq]
            have hrne : rest ≠ [] := by
              intro hr
              subst hr
              simp only [generate_multiple_entries, Except.ok.injEq] at h2
              exact hq h2.symm
            exact hrest.2 hrne

/-- Claim C10: a successful non-empty batch ends with an empty string
and has one separator per record: its length is the total number of
emitted rows (twelve per record, since the batch path forces the
conditional flags off) plus the number of records. -/
theorem C10_batch_separators :
    ∀ (es : List Entry) (now : DateTime) (qs : List String),
      generate_multiple_entries es now = Except.ok qs → es ≠ [] →
      qs.length = 12 * es.length + es.length ∧ qs.getLast? = some "" := by
  intro es now qs h hne
  obtain ⟨h1, h2⟩ := batch_shape es now qs h
  refine ⟨?_, h2 hne⟩
  rw [h1]
  ring

theorem C10_witness :
    generate_multiple_entries [wEntry] nwW =
        Except.ok (okD (generate_multiple_entries [wEntry] nwW))
    ∧ (okD (generate_multiple_entries [wEntry] nwW)).length =
        12 * [wEntry].length + [wEntry].length
    ∧ (okD (generate_multiple_entries [wEntry] nwW)).getLast? = some "" :=
  have h : generate_multiple_entries [wEntry] nwW =
      Except.ok (okD (generate_multiple_entries [wEntry] nwW)) := rfl
  have hc := C10_batch_separators [wEntry] nwW
    (okD (generate_multiple_entries [wEntry] nwW)) h (by simp)
  ⟨h, hc.1, hc.2⟩
